import Mathlib

set_option maxRecDepth 16000

/-!
Shallow embedding of the veda-ai-backend core (src/ai_providers.py, src/analytics.py)
and proofs about its specified properties.

Conventions of the embedding:
* Python strings are Lean `String`s; Python string methods (`lower`, `replace`,
  `strip`, `split`, `in`) are modelled by executable Lean functions below.
* Python dicts that are used as ordered association maps are `List (String × _)`
  with first-match lookup and in-place replacement on update, matching CPython
  dict semantics (insertion order preserved, assignment replaces in place).
* Python floats are modelled as `ℚ`.  The only float operations the code
  performs are averages of small integer counts, powers of 1.5/1.75/2.0 with
  exponents 0..2, and comparisons against integer thresholds; these are exact
  in double precision, so `ℚ` is faithful.
* Long literal prompt/guidance text blocks from the source are represented by
  short distinct marker strings (each constant's doc comment cites the source
  lines).  No theorem in this file depends on the characters of these payloads,
  only on which block is selected and on (in)equality of the assembled results,
  which the abbreviation preserves because all markers are pairwise distinct
  and non-empty, exactly as the source texts are.
-/

/-! ## Generic string helpers (Python semantics) -/

/-- Bool test that `pre` is a prefix of `l` (used to model Python `in`). -/
def listPrefB : List Char → List Char → Bool
  | [], _ => true
  | _ :: _, [] => false
  | a :: as, b :: bs => a = b && listPrefB as bs

/-- Bool test that `needle` occurs as a contiguous sublist of `l`. -/
def listContainsB (needle : List Char) : List Char → Bool
  | [] => needle.isEmpty
  | c :: rest => listPrefB needle (c :: rest) || listContainsB needle rest

/-- Python `needle in hay` for strings (substring containment). -/
def strContainsB (hay needle : String) : Bool :=
  listContainsB needle.toList hay.toList

/-- Characters Python `str.split()` (no argument) splits on. -/
def isPyWhitespace (c : Char) : Bool :=
  c = ' ' || c = '\t' || c = '\n' || c = '\r' || c = '\x0b' || c = '\x0c'

/-- Fuel-driven worker for Python `str.replace`: replace non-overlapping
occurrences of `pat` left to right.  The fuel is the input length, enough for
the whole scan; the `pat.isEmpty` guard is never hit by this code base (all
patterns are non-empty). -/
def replaceFuel (pat rep : List Char) : Nat → List Char → List Char
  | 0, l => l
  | _ + 1, [] => []
  | fuel + 1, c :: rest =>
    if listPrefB pat (c :: rest) && !pat.isEmpty then
      rep ++ replaceFuel pat rep fuel (rest.drop (pat.length - 1))
    else c :: replaceFuel pat rep fuel rest

/-- Python `s.replace(pat, rep)`. -/
def pyReplace (s pat rep : String) : String :=
  String.mk (replaceFuel pat.toList rep.toList s.toList.length s.toList)

/-- Python `s.lower()` (the code only lowercases ASCII-relevant data). -/
def pyLower (s : String) : String := String.mk (s.toList.map Char.toLower)

/-- Python `s.strip()`. -/
def pyStrip (s : String) : String :=
  String.mk (((s.toList.dropWhile isPyWhitespace).reverse.dropWhile isPyWhitespace).reverse)

/-- Worker for Python `s.split(sep)` with a single-character separator,
keeping empty pieces. -/
def splitCharAux (sep : Char) : List Char → List Char → List (List Char)
  | [], cur => [cur.reverse]
  | c :: rest, cur =>
    if c = sep then cur.reverse :: splitCharAux sep rest []
    else splitCharAux sep rest (c :: cur)

/-- Python `key.split(':')[1]` (the guidance-table keys have exactly one
colon). -/
def topicPartOf (k : String) : String :=
  String.mk ((splitCharAux ':' k.toList []).getD 1 [])

/-- Python `s.endswith("?")`. -/
def pyEndsWithQuestion (s : String) : Bool := s.toList.getLast? = some '?'

/-- Accumulator-based worker for Python `str.split()` (splits on whitespace
runs, drops empty pieces).  `cur` holds the current word reversed. -/
def splitWsAux : List Char → List Char → List (List Char)
  | [], cur => if cur.isEmpty then [] else [cur.reverse]
  | c :: rest, cur =>
    if isPyWhitespace c then
      if cur.isEmpty then splitWsAux rest [] else cur.reverse :: splitWsAux rest []
    else splitWsAux rest (c :: cur)

/-- Number of words of a Python string, `len(s.split())`. -/
def pyWordCount (s : String) : Nat := (splitWsAux s.toList []).length

/-- Worker for `re.split(r'[.!?]', text)`: split on `.`, `!`, `?`, keeping
empty pieces (Python `re.split` keeps them). -/
def splitPunctAux : List Char → List Char → List (List Char)
  | [], cur => [cur.reverse]
  | c :: rest, cur =>
    if c = '.' || c = '!' || c = '?' then cur.reverse :: splitPunctAux rest []
    else splitPunctAux rest (c :: cur)

/-- The pieces of `re.split(r'[.!?]', text)`. -/
def sentenceParts (text : String) : List (List Char) := splitPunctAux text.toList []

/-- First-match association lookup, Python `d[k]` / `k in d` on a dict with
unique keys. -/
def lookupA {α : Type} (k : String) : List (String × α) → Option α
  | [] => none
  | (k2, v) :: t => if k2 = k then some v else lookupA k t

/-! ## Topic alias table and guidance tables (ai_providers.py lines 219-678) -/

/-- Guidance body for `vedas:upanishads` (ai_providers.py lines 246-262;
literal text abbreviated to a distinct marker). -/
def upanishadsGuidance : String := "[guidance body vedas upanishads]"

/-- Guidance body for `vedas:rigveda` (lines 264-277; identical literal also
appears inside `find_best_topic_match`, lines 615-628). -/
def rigvedaGuidance : String := "[guidance body vedas rigveda]"

/-- Guidance body for `vedas:samaveda` (lines 279-290; identical literal also
appears inside `find_best_topic_match`, lines 630-641). -/
def samavedaGuidance : String := "[guidance body vedas samaveda]"

/-- Guidance body for `puranas:bhagavata_purana` (lines 293-306). -/
def bhagavataGuidance : String := "[guidance body puranas bhagavata purana]"

/-- Guidance body for `puranas:dashavatara` (lines 308-330). -/
def dashavataraGuidance : String := "[guidance body puranas dashavatara]"

/-- Guidance body for `epics:bhagavad_gita` (lines 333-357). -/
def bhagavadGitaGuidance : String := "[guidance body epics bhagavad gita]"

/-- Guidance body for `epics:ramayana` (lines 359-383). -/
def ramayanaGuidance : String := "[guidance body epics ramayana]"

/-- Guidance body for `knowledge:yoga` (lines 386-411). -/
def yogaGuidance : String := "[guidance body knowledge yoga]"

/-- Guidance body for `knowledge:vedanta` (lines 413-438). -/
def vedantaGuidance : String := "[guidance body knowledge vedanta]"

/-- Guidance body for `characters:krishna` (lines 441-470; identical literal
also appears inside `find_best_topic_match`, lines 643-672). -/
def krishnaGuidance : String := "[guidance body characters krishna]"

/-- Guidance body for `characters:shiva` (lines 472-502). -/
def shivaGuidance : String := "[guidance body characters shiva]"

/-- The `topic_guidance` dict of `get_topic_specific_guidance`
(ai_providers.py lines 244-503), in source order. -/
def topic_guidance_table : List (String × String) :=
  [("vedas:upanishads", upanishadsGuidance),
   ("vedas:rigveda", rigvedaGuidance),
   ("vedas:samaveda", samavedaGuidance),
   ("puranas:bhagavata_purana", bhagavataGuidance),
   ("puranas:dashavatara", dashavataraGuidance),
   ("epics:bhagavad_gita", bhagavadGitaGuidance),
   ("epics:ramayana", ramayanaGuidance),
   ("knowledge:yoga", yogaGuidance),
   ("knowledge:vedanta", vedantaGuidance),
   ("characters:krishna", krishnaGuidance),
   ("characters:shiva", shivaGuidance)]

/-- The `topic_mapping` alias dict of `find_best_topic_match`
(ai_providers.py lines 532-603), in source order. -/
def topic_mapping : List (String × String) :=
  [("rigveda_general", "rigveda"),
   ("rigveda", "rigveda"),
   ("rig_veda", "rigveda"),
   ("rig", "rigveda"),
   ("samaveda_general", "samaveda"),
   ("samaveda", "samaveda"),
   ("sama_veda", "samaveda"),
   ("sama", "samaveda"),
   ("yajurveda_general", "yajurveda"),
   ("yajurveda", "yajurveda"),
   ("yajur_veda", "yajurveda"),
   ("yajur", "yajurveda"),
   ("atharvaveda_general", "atharvaveda"),
   ("atharvaveda", "atharvaveda"),
   ("atharva_veda", "atharvaveda"),
   ("atharva", "atharvaveda"),
   ("upanishads", "upanishads"),
   ("upanishad", "upanishads"),
   ("bhagwat", "bhagavata_purana"),
   ("bhagwat_puran", "bhagavata_purana"),
   ("bhagavata", "bhagavata_purana"),
   ("bhagavata_purana", "bhagavata_purana"),
   ("srimad_bhagavatam", "bhagavata_purana"),
   ("bhagavatam", "bhagavata_purana"),
   ("dashavatara", "dashavatara"),
   ("dasavatar", "dashavatara"),
   ("dashavatar", "dashavatara"),
   ("avataras", "dashavatara"),
   ("avatars", "dashavatara"),
   ("vishnu_avatars", "dashavatara"),
   ("ramayana", "ramayana"),
   ("ramayan", "ramayana"),
   ("ram_charit_manas", "ramayana"),
   ("mahabharata", "mahabharata"),
   ("mahabharat", "mahabharata"),
   ("bhagavad_gita", "bhagavad_gita"),
   ("bhagavad", "bhagavad_gita"),
   ("bhagwat_geeta", "bhagavad_gita"),
   ("gita", "bhagavad_gita"),
   ("bhagavadgita", "bhagavad_gita"),
   ("yoga", "yoga"),
   ("yoga_sutras", "yoga"),
   ("patanjali", "yoga"),
   ("hatha_yoga", "yoga"),
   ("ashtanga_yoga", "yoga"),
   ("vedanta", "vedanta"),
   ("advaita", "vedanta"),
   ("advaita_vedanta", "vedanta"),
   ("dvaita", "vedanta"),
   ("vishishtadvaita", "vedanta"),
   ("krishna", "krishna"),
   ("krshna", "krishna"),
   ("shrikrishna", "krishna"),
   ("shri_krishna", "krishna"),
   ("krsna", "krishna"),
   ("kanhaiya", "krishna"),
   ("shiva", "shiva"),
   ("mahadev", "shiva"),
   ("rudra", "shiva"),
   ("bholenath", "shiva"),
   ("lord_shiva", "shiva")]

/-- The inner `topic_guidance` dict of `find_best_topic_match`
(ai_providers.py lines 614-673): only three canonical topics have entries
there, with the same literal bodies as the outer table. -/
def inner_topic_guidance : List (String × String) :=
  [("vedas:rigveda", rigvedaGuidance),
   ("vedas:samaveda", samavedaGuidance),
   ("characters:krishna", krishnaGuidance)]

/-- Topic normalization of `get_topic_specific_guidance` (line 231):
`topic.lower().replace(" ", "_").replace("-", "_")`. -/
def normalizeTopic (topic : String) : String :=
  pyReplace (pyReplace (pyLower topic) " " "_") "-" "_"

/-- Base-topic extraction of `get_topic_specific_guidance` (lines 234-236):
drop `_general` when present. -/
def baseTopicOf (normalized : String) : String :=
  if strContainsB normalized "_general" then pyReplace normalized "_general" ""
  else normalized

/-- The canonical-topic resolution of `find_best_topic_match` (lines
605-610): alias lookup of the base topic, then of the full topic. -/
def canonicalFrom (base_topic full_topic : String) : Option String :=
  match lookupA base_topic topic_mapping with
  | some c => some c
  | none => lookupA full_topic topic_mapping

/-- `find_best_topic_match` (ai_providers.py lines 519-678): map the base or
full topic through the alias table, then look the canonical topic up in the
inner guidance dict.  (Lines 680-819 of the source are unreachable code after
the `return None`.) -/
def find_best_topic_match (category base_topic full_topic : String) : Option String :=
  match canonicalFrom base_topic full_topic with
  | some c =>
    match lookupA (category ++ ":" ++ c) inner_topic_guidance with
    | some g => some ("SPECIALIZED GUIDANCE FOR THIS TOPIC (" ++ c ++ "):\n" ++ g)
    | none => none
  | none => none

/-- The partial-match loop of `get_topic_specific_guidance` (lines 511-514):
first table entry whose topic part contains or is contained in the
normalized topic. -/
def partialScan (nt : String) : List (String × String) → Option String
  | [] => none
  | (k, g) :: rest =>
    let topic_part := topicPartOf k
    if strContainsB nt topic_part || strContainsB topic_part nt then some g
    else partialScan nt rest

/-- `get_topic_specific_guidance` (ai_providers.py lines 219-517): returns the
guidance string, or `""` when nothing matches. -/
def get_topic_specific_guidance (category topic : String) : String :=
  let normalized_topic := normalizeTopic topic
  let base_topic := baseTopicOf normalized_topic
  match find_best_topic_match category base_topic normalized_topic with
  | some best => best
  | none =>
    match lookupA (category ++ ":" ++ normalized_topic) topic_guidance_table with
    | some g => "SPECIALIZED GUIDANCE FOR THIS SPECIFIC TOPIC:\n" ++ g
    | none =>
      match partialScan normalized_topic topic_guidance_table with
      | some g => "RELATED TOPIC GUIDANCE:\n" ++ g
      | none => ""

/-! ## Category personalities and prompt assembly (ai_providers.py lines 139-217) -/

/-- One entry of the `category_personalities` dict: persona name, greeting,
persona description, citation-style guidance. -/
structure Personality where
  name : String
  greeting : String
  persona : String
  quote_style : String
deriving DecidableEq

/-- `category_personalities["vedas"]` (lines 154-159; long texts abbreviated
to distinct markers). -/
def vedasPersonality : Personality :=
  ⟨"Veda Jnana", "[vedas greeting]", "[vedas persona]", "[vedas quote style]"⟩

/-- `category_personalities["puranas"]` (lines 160-165). -/
def puranasPersonality : Personality :=
  ⟨"Purana Darshak", "[puranas greeting]", "[puranas persona]", "[puranas quote style]"⟩

/-- `category_personalities["epics"]` (lines 166-171). -/
def epicsPersonality : Personality :=
  ⟨"Katha Vachak", "[epics greeting]", "[epics persona]", "[epics quote style]"⟩

/-- `category_personalities["knowledge"]` (lines 172-177). -/
def knowledgePersonality : Personality :=
  ⟨"Vidya Guru", "[knowledge greeting]", "[knowledge persona]", "[knowledge quote style]"⟩

/-- `category_personalities["characters"]` (lines 178-183). -/
def charactersPersonality : Personality :=
  ⟨"Deva Sakha", "[characters greeting]", "[characters persona]", "[characters quote style]"⟩

/-- The default personality used when the category is unknown (lines 187-192). -/
def defaultPersonality : Personality :=
  ⟨"Veda AI", "[default greeting]", "[default persona]", "[default quote style]"⟩

/-- The `category_personalities` dict (lines 153-184), in source order. -/
def category_personalities : List (String × Personality) :=
  [("vedas", vedasPersonality),
   ("puranas", puranasPersonality),
   ("epics", epicsPersonality),
   ("knowledge", knowledgePersonality),
   ("characters", charactersPersonality)]

/-- `category_personalities.get(category, default)` (lines 187-192). -/
def categoryPersonality (category : String) : Personality :=
  (lookupA category category_personalities).getD defaultPersonality

/-- Fixed English text of the base prompt between the persona and the quote
style (lines 195-202; abbreviated). -/
def baseCoreText : String := "[base prompt core instructions]\n\n"

/-- Fixed text before the greeting in the closing sentence (line 204). -/
def baseBeginText1 : String := "\n\nBegin your response with [quote]"

/-- Fixed text after the greeting in the closing sentence (line 204). -/
def baseBeginText2 : String := "[quote] and include at least one appropriate Sanskrit quote in each detailed response."

/-- Fixed text of the short-query length instruction before the repeated
greeting (line 208; abbreviated). -/
def shortSuffixText1 : String := "\n\n[short query instruction, still begin with] "

/-- Fixed text of the short-query length instruction after the repeated
greeting (line 208; abbreviated). -/
def shortSuffixText2 : String := " [maintain tone]"

/-- The detailed-response length instruction (line 210; abbreviated). -/
def longSuffixText : String := "\n\n[detailed response instruction]"

/-- The base prompt for a personality (lines 195-204): persona interpolation,
core instructions, quote style, closing sentence with the greeting. -/
def basePromptOf (p : Personality) : String :=
  "You are " ++ p.name ++ ", " ++ p.persona ++ baseCoreText ++ p.quote_style
    ++ baseBeginText1 ++ p.greeting ++ baseBeginText2

/-- The base prompt with the length instruction appended (lines 206-210). -/
def basePromptWithLength (p : Personality) (is_short_query : Bool) : String :=
  basePromptOf p ++
    (if is_short_query then shortSuffixText1 ++ p.greeting ++ shortSuffixText2
     else longSuffixText)

/-- `build_system_prompt` (ai_providers.py lines 139-217): persona lookup with
default, length instruction, and the topic guidance appended when non-empty. -/
def build_system_prompt (category topic : String) (is_short_query : Bool) : String :=
  let personality := categoryPersonality category
  let base := basePromptWithLength personality is_short_query
  let topic_guidance := get_topic_specific_guidance category topic
  if topic_guidance ≠ "" then base ++ "\n\n" ++ topic_guidance else base

/-! ## Query classifier: `analyze_content` (ai_providers.py lines 842-910) -/

/-- The `complex_indicators` keyword list (lines 859-869), in source order. -/
def complex_indicators : List String :=
  ["philosophy", "metaphysics", "consciousness", "reality", "existence",
   "brahman", "atman", "moksha", "dharma", "karma", "reincarnation",
   "enlightenment", "liberation", "advaita", "dvaita", "vishishtadvaita",
   "samkhya", "vedanta", "nyaya", "vaisheshika", "mimamsa", "monism", "dualism",
   "non-dualism", "epistemology", "ontology", "cosmology", "eschatology",
   "purusharthas", "purusha", "prakriti", "gunas", "sattva", "rajas", "tamas",
   "samsara", "nirvana", "yoga", "meditation", "samadhi", "chakras", "kundalini",
   "tantra", "mantra", "yantra", "yagna", "sacrifice", "ritual", "sadhana",
   "jnana", "bhakti", "karma yoga", "raja yoga", "spiritual", "transcendental"]

/-- Category extraction loop (lines 845-849 / 1058-1062): first of the five
category names contained in the lowercased prompt, else `"general"`. -/
def extractCategory (sysText : String) : String :=
  match ["vedas", "puranas", "epics", "knowledge", "characters"].find?
      (fun cat => strContainsB (pyLower sysText) cat) with
  | some cat => cat
  | none => "general"

/-- The word characters of Python regex `\w` (ASCII range, as used here). -/
def isWordChar (c : Char) : Bool := c.isAlphanum || c = '_'

/-- `re.search(r'focusing specifically on (\w+)', system_text)` (lines
853-855): first position where the literal marker is followed by at least one
word character; returns the captured word. -/
def findTopicMarker (marker : List Char) : List Char → Option String
  | [] => none
  | c :: rest =>
    if listPrefB marker (c :: rest) then
      let w := ((c :: rest).drop marker.length).takeWhile isWordChar
      if w.isEmpty then findTopicMarker marker rest else some (String.mk w)
    else findTopicMarker marker rest

/-- The keyword scan of `analyze_content` (lines 882-887): add one per
matching indicator, but stop as soon as the running score reaches 3. -/
def keywordLoop (lowText lowSys : String) : List String → Nat → Nat
  | [], score => score
  | term :: rest, score =>
    if strContainsB lowText term || strContainsB lowSys term then
      let s := score + 1
      if 3 ≤ s then s else keywordLoop lowText lowSys rest s
    else keywordLoop lowText lowSys rest score

/-- Word-sum and denominator of the average-sentence-length computation
(line 872): total words over the non-empty pieces of
`re.split(r'[.!?]', text)`, and `max(1, number of non-empty pieces)`. -/
def sentenceStats (text : String) : Nat × Nat :=
  let parts := (sentenceParts text).filter (fun p => !p.isEmpty)
  ((parts.map (fun p => (splitWsAux p []).length)).sum, max 1 parts.length)

/-- Average sentence length as the rational `sum / max 1 count` (the Python
float; exact for these small integer operands). -/
def avgSentenceLength (text : String) : ℚ :=
  ((sentenceStats text).1 : ℚ) / ((sentenceStats text).2 : ℚ)

/-- The comparison `avg_sentence_length > k` of lines 876-878, written as the
equivalent cross-multiplied integer comparison `k * denominator < sum`
(the denominator is positive, and the Python float comparison of this
quotient of small integers against an integer threshold is exact). -/
def avgGt (text : String) (k : Nat) : Bool :=
  k * (sentenceStats text).2 < (sentenceStats text).1

/-- The result record of `analyze_content` (lines 902-910). -/
structure ContentAnalysis where
  category : String
  topic : String
  complexity : Nat
  has_questions : Bool
  is_multi_question : Bool
  word_count : Nat
  avg_sentence_length : ℚ
deriving DecidableEq

/-- `analyze_content` (ai_providers.py lines 842-910): category/topic
extraction, complexity score from sentence length, keywords and message
length, and question counts. -/
def analyze_content (text system_text : String) : ContentAnalysis :=
  let lowText := pyLower text
  let lowSys := pyLower system_text
  let extracted_category := extractCategory system_text
  let extracted_topic :=
    match findTopicMarker "focusing specifically on ".toList system_text.toList with
    | some w => w
    | none => "general"
  let score1 : Nat := if avgGt text 15 then 2 else if avgGt text 8 then 1 else 0
  let score2 := keywordLoop lowText lowSys complex_indicators score1
  let word_count := pyWordCount text
  let score3 := if 30 < word_count then score2 + 1 else score2
  let query_complexity := min 5 (score3 + 1)
  let question_count := text.toList.count '?'
  { category := extracted_category
    topic := extracted_topic
    complexity := query_complexity
    has_questions := 0 < question_count
    is_multi_question := 1 < question_count
    word_count := word_count
    avg_sentence_length := avgSentenceLength text }

/-! ## Provider client: parameter selection and retry loop
(ai_providers.py lines 821-1105) -/

/-- The generation-parameter tuple chosen by lines 916-957. -/
structure MistralParams where
  model : String
  max_tokens : Nat
  temperature : ℚ
  top_p : ℚ
  max_retries : Nat
  backoff_factor : ℚ
  timeout : Nat
deriving DecidableEq

/-- The adaptive model/parameter selection of `generate_mistral_response`
(lines 916-957). -/
def selectMistralParams (ca : ContentAnalysis) (is_short_query : Bool) : MistralParams :=
  if is_short_query then
    ⟨"mistral-small-latest", 250, 67/100, 82/100, 2, 3/2, 15⟩
  else if (4 ≤ ca.complexity && (ca.category == "vedas" || ca.category == "knowledge"))
      || ca.is_multi_question then
    ⟨"mistral-large-latest", 1500, 73/100, 91/100, 3, 2, 35⟩
  else if 3 ≤ ca.complexity || ca.category == "vedas" || ca.category == "knowledge" then
    ⟨"mistral-medium-latest", 1200, 70/100, 88/100, 3, 7/4, 30⟩
  else
    ⟨"mistral-small-latest", 800, 68/100, 85/100, 2, 3/2, 25⟩

/-- Shape of one HTTP response body as far as the client inspects it. -/
inductive BodyShape where
  /-- JSON parses and `result["choices"][0]["message"]["content"]` exists. -/
  | valid (content : String)
  /-- `response.json()` raises (a `RequestException` without a response). -/
  | badJson
  /-- JSON parses but the expected keys are missing: the `KeyError` /
  `IndexError` escapes `generate_mistral_response` uncaught. -/
  | badShape
deriving DecidableEq

/-- Outcome of one outbound HTTP attempt, as distinguished by the client. -/
inductive HttpOutcome where
  /-- HTTP 200. -/
  | ok (body : BodyShape)
  /-- HTTP 429, with the optional integer `Retry-After` header. -/
  | rateLimited (retryAfter : Option Nat)
  /-- any other non-2xx status: `raise_for_status` raises an `HTTPError`
  carrying the response. -/
  | httpError (code : Nat)
  /-- `requests.exceptions.Timeout`. -/
  | timeout
  /-- `requests.exceptions.ConnectionError`. -/
  | connError
deriving DecidableEq

/-- Observable events of the retry loop: attempts and `time.sleep` calls
(durations in seconds). -/
inductive Ev where
  | attempt
  | sleep (seconds : ℚ)
deriving DecidableEq

/-- Result of `generate_mistral_response`: the success dict, the fallback
dict (category and short flag determine the canned text; `error` is the
`last_error` value, `none` modelling Python `None`), or an uncaught
exception. -/
inductive MistralOutcome where
  | ok (content : String) (model : String) (complexity : Nat)
  | fallback (category : String) (short : Bool) (error : Option String)
      (model : String) (complexity : Nat)
  | exc
deriving DecidableEq

/-- The retry loop of `generate_mistral_response` (lines 974-1105).  The
fuel is `max_retries - retry_count`, so `fuel = 0` is the loop exit
(`retry_count < max_retries` fails) and the fallback return; a `break`
reaches the same fallback code directly.  `rc` is `retry_count`, `le` is
`last_error`, `tr` accumulates the sleep/attempt trace. -/
def mistralLoop (provider : Nat → HttpOutcome) (fb_category : String) (short : Bool)
    (model : String) (complexity : Nat) (backoff : ℚ) :
    Nat → Nat → Option String → List Ev → MistralOutcome × List Ev
  | 0, _, le, tr => (.fallback fb_category short le model complexity, tr)
  | fuel + 1, rc, le, tr =>
    let tr1 := if 0 < rc then tr ++ [Ev.sleep (backoff ^ rc)] else tr
    let tr2 := tr1 ++ [Ev.attempt]
    match provider rc with
    | .ok (.valid c) => (.ok c model complexity, tr2)
    | .ok .badJson =>
      (.fallback fb_category short (some "api_error") model complexity, tr2)
    | .ok .badShape => (.exc, tr2)
    | .rateLimited ra =>
      let w : ℚ := match ra with
        | some n => (n : ℚ)
        | none => ((backoff ^ rc).floor : ℚ)
      mistralLoop provider fb_category short model complexity backoff
        fuel (rc + 1) le (tr2 ++ [Ev.sleep w])
    | .httpError code =>
      if 500 ≤ code || code == 429 then
        mistralLoop provider fb_category short model complexity backoff
          fuel (rc + 1) (some ("http_" ++ toString code)) tr2
      else
        (.fallback fb_category short (some "api_error") model complexity, tr2)
    | .timeout =>
      mistralLoop provider fb_category short model complexity backoff
        fuel (rc + 1) (some "timeout") tr2
    | .connError =>
      mistralLoop provider fb_category short model complexity backoff
        fuel (rc + 1) (some "connection") tr2

/-- `generate_mistral_response` (ai_providers.py lines 821-1105), with the
provider modelled as a function from the attempt index (`retry_count` at
request time) to this attempt's outcome. -/
def generate_mistral_response (system_prompt message : String) (is_short_query : Bool)
    (provider : Nat → HttpOutcome) : MistralOutcome × List Ev :=
  let ca := analyze_content message system_prompt
  let p := selectMistralParams ca is_short_query
  mistralLoop provider (extractCategory system_prompt) is_short_query
    p.model ca.complexity p.backoff_factor p.max_retries 0 none []

/-! ## Response cache and chat dispatch (ai_providers.py lines 29-137) -/

/-- `CACHE_TTL` (line 31), in seconds. -/
def CACHE_TTL : Nat := 3600

/-- `CACHE_MAX_SIZE` (line 32). -/
def CACHE_MAX_SIZE : Nat := 1000

/-- One value of `RESPONSE_CACHE`: response text plus expiry timestamp
(timestamps in seconds; `datetime.utcnow()` is passed in explicitly as
`now`). -/
structure CacheEntry where
  response : String
  expiry : Nat
deriving DecidableEq

/-- The `RESPONSE_CACHE` dict, as an insertion-ordered association list with
unique keys. -/
abbrev Cache := List (String × CacheEntry)

/-- Python dict assignment `d[k] = v`: replace in place, else append. -/
def insertA (k : String) (v : CacheEntry) : Cache → Cache
  | [] => [(k, v)]
  | (k2, v2) :: t => if k2 = k then (k, v) :: t else (k2, v2) :: insertA k v t

/-- The cache-read step of `generate_chat_response` (lines 85-92): the cached
response if the key is present and unexpired, else `none` (an expired entry
is left in place and ignored). -/
def cacheLookupFresh (now : Nat) (key : String) (cache : Cache) : Option String :=
  match lookupA key cache with
  | some cd => if now < cd.expiry then some cd.response else none
  | none => none

/-- `clean_expired_cache_entries` (ai_providers.py lines 35-66): drop the
entries whose expiry is strictly in the past, then, if still above
`CACHE_MAX_SIZE`, keep only the `CACHE_MAX_SIZE` entries with the latest
expiries (sort by expiry, newest first, take the prefix).  All entries carry
an `expiry` key, so the `.get` defaults never fire. -/
def clean_expired_cache_entries (now : Nat) (cache : Cache) : Cache :=
  let kept := cache.filter (fun kv => decide (now ≤ kv.2.expiry))
  if CACHE_MAX_SIZE < kept.length then
    (kept.mergeSort (fun a b => b.2.expiry ≤ a.2.expiry)).take CACHE_MAX_SIZE
  else kept

/-- The `simple_greetings` list (lines 95-99). -/
def simple_greetings : List String :=
  ["hi", "hello", "hey", "namaste", "ram ram", "jai shree krishna",
   "jai shree ram", "how are you", "good morning", "good afternoon",
   "good evening", "greetings", "om namah shivaya", "hare krishna"]

/-- The short-query test of `generate_chat_response` (lines 101-109):
greeting, or a question of at most 3 words, or at most 2 words. -/
def computeShortQuery (message : String) : Bool :=
  let cleaned := pyStrip (pyLower message)
  simple_greetings.contains cleaned
    || (pyEndsWithQuestion cleaned && pyWordCount cleaned ≤ 3)
    || pyWordCount cleaned ≤ 2

/-- The fallback text table `category_fallbacks` (lines 1065-1092): per
category a short and a long canned message, with a default pair (long texts
abbreviated to distinct markers). -/
def category_fallbacks : List (String × (String × String)) :=
  [("vedas", ("[vedas fallback short]", "[vedas fallback long]")),
   ("puranas", ("[puranas fallback short]", "[puranas fallback long]")),
   ("epics", ("[epics fallback short]", "[epics fallback long]")),
   ("knowledge", ("[knowledge fallback short]", "[knowledge fallback long]")),
   ("characters", ("[characters fallback short]", "[characters fallback long]"))]

/-- The default fallback pair (lines 1089-1092). -/
def default_fallbacks : String × String :=
  ("[default fallback short]", "[default fallback long]")

/-- The fallback response text (lines 1088-1094): category-personalized,
short or long per the query type. -/
def mistralFallbackText (category : String) (short : Bool) : String :=
  let fb := (lookupA category category_fallbacks).getD default_fallbacks
  if short then fb.1 else fb.2

/-- The response dict as the route layer sees it: `response` is `some` iff
the `'response'` key is present, `error` is `some e` iff the `'error'` key is
present with value `e` (where `e = none` models Python `None`). -/
structure RespDict where
  response : Option String
  error : Option (Option String)
  model : Option String
deriving DecidableEq

/-- Rendering of a `MistralOutcome` as the dict `generate_mistral_response`
returns (lines 1020-1025 and 1100-1105); `exc` never produces a dict. -/
def mistralDict : MistralOutcome → RespDict
  | .ok c m _ => ⟨some c, none, some m⟩
  | .fallback cat short e m _ => ⟨some (mistralFallbackText cat short), some e, some m⟩
  | .exc => ⟨none, none, none⟩

/-- `generate_chat_response` (ai_providers.py lines 68-137).  `h` models
Python's per-process `hash` on strings, `now` the current time in seconds,
`api_available` the `mistral_api_available` flag, and `provider` the
outcome of each outbound attempt.  Returns the response dict and the
updated `RESPONSE_CACHE`. -/
def generate_chat_response (h : String → Int) (now : Nat) (api_available : Bool)
    (provider : Nat → HttpOutcome) (message category topic : String)
    (cache : Cache) : RespDict × Cache :=
  let cache_key := category ++ ":" ++ topic ++ ":" ++ toString (h message)
  match cacheLookupFresh now cache_key cache with
  | some cached => (⟨some cached, none, none⟩, cache)
  | none =>
    let is_short_query := computeShortQuery message
    let system_prompt := build_system_prompt category topic is_short_query
    if api_available then
      match generate_mistral_response system_prompt message is_short_query provider with
      | (.ok c m cx, _) =>
        (mistralDict (.ok c m cx),
         insertA cache_key ⟨c, now + CACHE_TTL⟩ cache)
      | (.fallback cat short e m cx, _) =>
        (mistralDict (.fallback cat short e m cx),
         insertA cache_key ⟨mistralFallbackText cat short, now + CACHE_TTL⟩ cache)
      | (.exc, _) =>
        (⟨some "An error occurred while generating a response. Please try again later.",
          none, none⟩, cache)
    else
      (⟨some "Mistral AI API key is not configured. Please set the MISTRAL_API_KEY environment variable.",
        none, none⟩, cache)

/-! ## Analytics counters (src/analytics.py lines 22-82) -/

/-- One element of `ANALYTICS_STORE['response_times']` (lines 42-48). -/
structure RTEntry where
  timestamp : Nat
  category : String
  topic : String
  model : String
  response_time : ℚ
deriving DecidableEq

/-- The in-memory `ANALYTICS_STORE` (analytics.py lines 22-29). -/
structure AnalyticsStore where
  response_times : List RTEntry
  requests_per_category : List (String × Nat)
  requests_per_topic : List (String × Nat)
  errors : List (String × Nat)
  total_requests : Nat
  successful_requests : Nat
deriving DecidableEq

/-- The initial `ANALYTICS_STORE` value. -/
def initialAnalyticsStore : AnalyticsStore := ⟨[], [], [], [], 0, 0⟩

/-- Python `d[k] = d.get(k, 0) + 1` on an ordered dict. -/
def bumpCount (k : String) : List (String × Nat) → List (String × Nat)
  | [] => [(k, 1)]
  | (k2, n) :: t => if k2 = k then (k2, n + 1) :: t else (k2, n) :: bumpCount k t

/-- `track_response_time` (analytics.py lines 31-61). -/
def track_response_time (category topic model : String) (response_time : ℚ)
    (timestamp : Nat) (s : AnalyticsStore) : AnalyticsStore :=
  { s with
    response_times :=
      s.response_times ++ [⟨timestamp, category, topic, model, response_time⟩]
    requests_per_category := bumpCount category s.requests_per_category
    requests_per_topic := bumpCount (category ++ ":" ++ topic) s.requests_per_topic
    total_requests := s.total_requests + 1
    successful_requests := s.successful_requests + 1 }

/-- `track_error` (analytics.py lines 63-82): the error key is
`f"{error_type}"`, i.e. the error type itself; category, topic and message
are only logged. -/
def track_error (category topic error_type error_message : String)
    (s : AnalyticsStore) : AnalyticsStore :=
  { s with
    errors := bumpCount error_type s.errors
    total_requests := s.total_requests + 1 }

/-- A call to one of the two tracking functions. -/
inductive AnalyticsOp where
  | responseTime (category topic model : String) (response_time : ℚ) (timestamp : Nat)
  | errorEvent (category topic error_type error_message : String)

/-- Apply one tracking call to the store. -/
def applyAnalyticsOp (s : AnalyticsStore) : AnalyticsOp → AnalyticsStore
  | .responseTime c t m r ts => track_response_time c t m r ts s
  | .errorEvent c t e msg => track_error c t e msg s

/-- Run a sequence of tracking calls from the initial store. -/
def runAnalyticsOps (ops : List AnalyticsOp) : AnalyticsStore :=
  ops.foldl applyAnalyticsOp initialAnalyticsStore

/-- Sum of all error counts in the store. -/
def sumErrors (s : AnalyticsStore) : Nat := (s.errors.map Prod.snd).sum

/-- The store invariant of claim C10: successes never exceed totals, and the
total is exactly the successes plus all error counts. -/
def AnalyticsInv (s : AnalyticsStore) : Prop :=
  s.successful_requests ≤ s.total_requests
    ∧ s.total_requests = s.successful_requests + sumErrors s

/-! ## Helper lemmas -/

/-- When the canonical topic resolves and has an inner-table entry, the
guidance is the inner `SPECIALIZED GUIDANCE FOR THIS TOPIC` text. -/
theorem guidance_of_inner_hit (cat t c g : String)
    (h1 : canonicalFrom (baseTopicOf (normalizeTopic t)) (normalizeTopic t) = some c)
    (h2 : lookupA (cat ++ ":" ++ c) inner_topic_guidance = some g) :
    get_topic_specific_guidance cat t
      = "SPECIALIZED GUIDANCE FOR THIS TOPIC (" ++ c ++ "):\n" ++ g := by
  simp only [get_topic_specific_guidance, find_best_topic_match, h1, h2]

/-- Every alias of the alias table resolves to its canonical topic through
the normalize/base/alias-lookup pipeline, and every canonical topic that
appears as a value resolves to itself. -/
theorem alias_resolution : ∀ p ∈ topic_mapping,
    canonicalFrom (baseTopicOf (normalizeTopic p.1)) (normalizeTopic p.1) = some p.2
      ∧ canonicalFrom (baseTopicOf (normalizeTopic p.2)) (normalizeTopic p.2) = some p.2 := by
  decide

/-! ## Claim C1 -/

/-- C1 (counterexample): `"mahadev"` is an alias of `"shiva"` in the alias
table, yet for category `"characters"` the alias yields no topic guidance
while the canonical id yields the shiva guidance, so the assembled system
prompts differ. -/
theorem C1_alias_guidance_cex :
    ("mahadev", "shiva") ∈ topic_mapping
      ∧ get_topic_specific_guidance "characters" "mahadev"
          ≠ get_topic_specific_guidance "characters" "shiva"
      ∧ build_system_prompt "characters" "mahadev" false
          ≠ build_system_prompt "characters" "shiva" false := by
  decide

/-- C1 (amended): for every alias of the alias table whose canonical topic
has, for the given category, an entry in `find_best_topic_match`'s inner
guidance table, building the system prompt with the alias yields the same
topic-specific guidance (and the same prompt) as the canonical id. -/
theorem C1_alias_guidance_amended (ali canon cat g : String) (s : Bool)
    (hmem : (ali, canon) ∈ topic_mapping)
    (hinner : lookupA (cat ++ ":" ++ canon) inner_topic_guidance = some g) :
    get_topic_specific_guidance cat ali = get_topic_specific_guidance cat canon
      ∧ build_system_prompt cat ali s = build_system_prompt cat canon s := by
  obtain ⟨h1, h2⟩ := alias_resolution (ali, canon) hmem
  have ga := guidance_of_inner_hit cat ali canon g h1 hinner
  have gc := guidance_of_inner_hit cat canon canon g h2 hinner
  refine ⟨ga.trans gc.symm, ?_⟩
  simp only [build_system_prompt, ga, gc]

/-- C1 (witness): the amended theorem applied to the concrete alias
`"rig"` of `"rigveda"` in category `"vedas"`. -/
theorem C1_alias_guidance_witness :
    ("rig", "rigveda") ∈ topic_mapping
      ∧ lookupA ("vedas" ++ ":" ++ "rigveda") inner_topic_guidance = some rigvedaGuidance
      ∧ (get_topic_specific_guidance "vedas" "rig"
            = get_topic_specific_guidance "vedas" "rigveda"
          ∧ build_system_prompt "vedas" "rig" false
              = build_system_prompt "vedas" "rigveda" false) :=
  ⟨by decide, by decide,
   C1_alias_guidance_amended "rig" "rigveda" "vedas" rigvedaGuidance false
     (by decide) (by decide)⟩

/-! ## Claim C3 -/

/-- Number of complexity indicators found in the message or the system
prompt (both lowercased), without the early-exit cap. -/
def keywordMatchCount (lowText lowSys : String) : Nat :=
  (complex_indicators.filter
    (fun t => strContainsB lowText t || strContainsB lowSys t)).length

/-- Closed form of the keyword scan: starting below 3, the loop adds the
number of matching indicators, capped so the running score stops at 3. -/
theorem keywordLoop_closed (lt ls : String) (terms : List String) : ∀ s0 : Nat, s0 < 3 →
    keywordLoop lt ls terms s0
      = s0 + min ((terms.filter
            (fun t => strContainsB lt t || strContainsB ls t)).length) (3 - s0) := by
  induction terms with
  | nil => intro s0 _; simp [keywordLoop]
  | cons t rest ih =>
    intro s0 h
    simp only [keywordLoop, List.filter_cons]
    by_cases hm : (strContainsB lt t || strContainsB ls t) = true
    · simp only [hm, if_true, List.length_cons]
      by_cases h3 : 3 ≤ s0 + 1
      · rw [if_pos h3, Nat.min_def]
        split_ifs <;> omega
      · rw [if_neg h3, ih (s0 + 1) (by omega), Nat.min_def, Nat.min_def]
        split_ifs <;> omega
    · simp only [Bool.not_eq_true] at hm
      simp only [hm, Bool.false_eq_true, if_false]
      exact ih s0 h

/-- The complexity score the claim describes, in the claim's own terms
(base 1; +1 for average sentence length over the threshold; +1 for message
length over the threshold; +1 if a domain keyword is present; +1 for
multiple question marks; capped at 5), using the thresholds the code uses. -/
def specComplexityScore (text system_text : String) : Nat :=
  min 5 (1 + (if avgGt text 15 then 1 else 0)
           + (if 30 < pyWordCount text then 1 else 0)
           + (if 0 < keywordMatchCount (pyLower text) (pyLower system_text) then 1 else 0)
           + (if 1 < text.toList.count '?' then 1 else 0))

/-- C3 (counterexample): on the message `"x? y? z?"` (three question marks,
no keywords, short sentences) the code computes complexity 1, while the
claimed formula (which adds one for multiple question marks) yields 2. -/
theorem C3_complexity_cex :
    (analyze_content "x? y? z?" "").complexity = 1
      ∧ specComplexityScore "x? y? z?" "" = 2
      ∧ (analyze_content "x? y? z?" "").complexity
          ≠ specComplexityScore "x? y? z?" "" := by
  decide

/-- C3 (amended): the complexity score equals base 1, plus 2 when the
average sentence length exceeds 15 (1 when it only exceeds 8), plus one per
matching domain keyword up to the cap that stops the keyword scan at a
running score of 3, plus 1 when the word count exceeds 30, all capped at 5;
question marks never contribute. -/
theorem C3_complexity_closed_form (text system_text : String) :
    (analyze_content text system_text).complexity
      = min 5 (1
          + (if avgGt text 15 then 2 else if avgGt text 8 then 1 else 0)
          + min (keywordMatchCount (pyLower text) (pyLower system_text))
              (3 - (if avgGt text 15 then 2 else if avgGt text 8 then 1 else 0))
          + (if 30 < pyWordCount text then 1 else 0)) := by
  simp only [analyze_content, keywordMatchCount]
  rw [keywordLoop_closed (pyLower text) (pyLower system_text) complex_indicators
    (if avgGt text 15 then 2 else if avgGt text 8 then 1 else 0)
    (by split_ifs <;> omega)]
  split_ifs <;> omega

/-! ## Claim C4 -/

/-- C4: for every known category and every topic that matches nothing in the
guidance machinery (no alias-based match, no exact key, no substring match),
`build_system_prompt` returns exactly the category persona's base prompt
with the length instruction and no guidance section, and the persona is the
category's own (the lookup succeeds, no default). -/
theorem C4_unknown_topic_prompt (category topic : String) (s : Bool)
    (hknown : category ∈ ["vedas", "puranas", "epics", "knowledge", "characters"])
    (h1 : find_best_topic_match category (baseTopicOf (normalizeTopic topic))
        (normalizeTopic topic) = none)
    (h2 : lookupA (category ++ ":" ++ normalizeTopic topic) topic_guidance_table = none)
    (h3 : partialScan (normalizeTopic topic) topic_guidance_table = none) :
    build_system_prompt category topic s
        = basePromptWithLength (categoryPersonality category) s
      ∧ (lookupA category category_personalities).isSome = true := by
  have hg : get_topic_specific_guidance category topic = "" := by
    simp only [get_topic_specific_guidance, h1, h2, h3]
  refine ⟨?_, ?_⟩
  · simp [build_system_prompt, hg]
  · fin_cases hknown <;> decide

/-- C4 (witness): the unknown-topic theorem at category `"vedas"` and topic
`"zzz"`. -/
theorem C4_unknown_topic_witness :
    "vedas" ∈ ["vedas", "puranas", "epics", "knowledge", "characters"]
      ∧ find_best_topic_match "vedas" (baseTopicOf (normalizeTopic "zzz"))
          (normalizeTopic "zzz") = none
      ∧ lookupA ("vedas" ++ ":" ++ normalizeTopic "zzz") topic_guidance_table = none
      ∧ partialScan (normalizeTopic "zzz") topic_guidance_table = none
      ∧ (build_system_prompt "vedas" "zzz" false
            = basePromptWithLength (categoryPersonality "vedas") false
          ∧ (lookupA "vedas" category_personalities).isSome = true) :=
  ⟨by decide, by decide, by decide, by decide,
   C4_unknown_topic_prompt "vedas" "zzz" false (by decide) (by decide)
     (by decide) (by decide)⟩

/-! ## Claim C2 -/

/-- C2 (code evaluation at the failing input): with a provider that answers
HTTP 429 with `Retry-After: 2` on every attempt and a short query
(`max_retries = 2`, backoff factor 3/2), the client makes two attempts,
sleeps 2 seconds (the Retry-After value) after each and an additional 3/2
seconds of backoff before the second — so at least 2 seconds pass between
consecutive attempts — and returns the fallback dict without raising;
however its `error` field is `none` (Python `None`), not a retryable error
code, because the rate-limit branch never assigns `last_error`. -/
theorem C2_rate_limit_fallback_eval :
    generate_mistral_response "p" "hi" true (fun _ => .rateLimited (some 2))
      = (.fallback "general" true none "mistral-small-latest" 1,
         [Ev.attempt, Ev.sleep 2, Ev.sleep ((3 : ℚ)/2), Ev.attempt, Ev.sleep 2]) := by
  rw [Prod.ext_iff]
  refine ⟨by decide, ?_⟩
  show [Ev.attempt, Ev.sleep ((2 : Nat) : ℚ), Ev.sleep (((3 : ℚ)/2) ^ (1 : Nat)),
        Ev.attempt, Ev.sleep ((2 : Nat) : ℚ)] = _
  norm_num

/-! ## Claim C7 -/

/-- At a non-retryable HTTP error on the first attempt, the loop stops
immediately with the `api_error` fallback and no sleep. -/
theorem mistralLoop_nonretryable (provider : Nat → HttpOutcome) (cat model : String)
    (short : Bool) (cx fuel code : Nat) (b : ℚ)
    (hcode : code < 500) (hcode2 : code ≠ 429)
    (hprov : provider 0 = .httpError code) :
    mistralLoop provider cat short model cx b (fuel + 1) 0 none []
      = (.fallback cat short (some "api_error") model cx, [Ev.attempt]) := by
  have h1 : decide (500 ≤ code) = false := decide_eq_false (by omega)
  have h2 : (code == 429) = false := by simp [hcode2]
  simp [mistralLoop, hprov, h1, h2]

/-- Every branch of the parameter selection chooses a positive retry count. -/
theorem max_retries_pos (ca : ContentAnalysis) (s : Bool) :
    ∃ k, (selectMistralParams ca s).max_retries = k + 1 := by
  unfold selectMistralParams
  split_ifs <;> first | exact ⟨1, rfl⟩ | exact ⟨2, rfl⟩

/-- C7: for a provider answering any non-5xx, non-429 HTTP error status,
`generate_mistral_response` makes exactly one attempt (no retry, no backoff
sleep) and returns the fallback dict with `error` set to the non-retryable
tag `"api_error"`. -/
theorem C7_nonretryable_single_attempt (system_prompt message : String) (short : Bool)
    (code : Nat) (hcode : code < 500) (hcode2 : code ≠ 429) :
    generate_mistral_response system_prompt message short (fun _ => .httpError code)
      = (.fallback (extractCategory system_prompt) short (some "api_error")
          (selectMistralParams (analyze_content message system_prompt) short).model
          (analyze_content message system_prompt).complexity,
         [Ev.attempt]) := by
  obtain ⟨k, hk⟩ := max_retries_pos (analyze_content message system_prompt) short
  simp only [generate_mistral_response, hk]
  exact mistralLoop_nonretryable _ _ _ _ _ k code _ hcode hcode2 rfl

/-- C7 (witness): the non-retryable theorem at HTTP 401 on a short query. -/
theorem C7_nonretryable_witness :
    401 < 500 ∧ 401 ≠ 429
      ∧ generate_mistral_response "p" "hi" true (fun _ => .httpError 401)
          = (.fallback (extractCategory "p") true (some "api_error")
              (selectMistralParams (analyze_content "hi" "p") true).model
              (analyze_content "hi" "p").complexity,
             [Ev.attempt]) :=
  ⟨by omega, by omega,
   C7_nonretryable_single_attempt "p" "hi" true 401 (by omega) (by omega)⟩

/-! ## Claim C5 -/

/-- Looking up the key just written finds the written entry. -/
theorem lookupA_insertA_self (k : String) (v : CacheEntry) (l : Cache) :
    lookupA k (insertA k v l) = some v := by
  induction l with
  | nil => simp [insertA, lookupA]
  | cons p t ih =>
    obtain ⟨k2, v2⟩ := p
    by_cases hk : k2 = k
    · simp [insertA, hk, lookupA]
    · simp [insertA, hk, lookupA, ih]

/-- Writing one key leaves every other key's lookup unchanged. -/
theorem lookupA_insertA_ne (k k2 : String) (v : CacheEntry) (l : Cache)
    (h : k2 ≠ k) :
    lookupA k2 (insertA k v l) = lookupA k2 l := by
  have hne : ¬ (k = k2) := fun hh => h hh.symm
  induction l with
  | nil => simp [insertA, lookupA, hne]
  | cons p t ih =>
    obtain ⟨k3, v3⟩ := p
    by_cases hk : k3 = k
    · subst hk
      simp [insertA, lookupA, hne]
    · simp [insertA, hk, lookupA, ih]

/-- When the first attempt succeeds with a well-formed body, the loop
returns the success dict after exactly one attempt. -/
theorem mistralLoop_first_ok (provider : Nat → HttpOutcome) (cat model : String)
    (short : Bool) (cx fuel : Nat) (b : ℚ) (c : String)
    (hprov : provider 0 = .ok (.valid c)) :
    mistralLoop provider cat short model cx b (fuel + 1) 0 none []
      = (.ok c model cx, [Ev.attempt]) := by
  simp [mistralLoop, hprov]

/-- `generate_mistral_response` on a first-attempt success. -/
theorem generate_mistral_first_ok (system_prompt message : String) (short : Bool)
    (provider : Nat → HttpOutcome) (c : String)
    (hprov : provider 0 = .ok (.valid c)) :
    generate_mistral_response system_prompt message short provider
      = (.ok c (selectMistralParams (analyze_content message system_prompt) short).model
          (analyze_content message system_prompt).complexity, [Ev.attempt]) := by
  obtain ⟨k, hk⟩ := max_retries_pos (analyze_content message system_prompt) short
  simp only [generate_mistral_response, hk]
  exact mistralLoop_first_ok _ _ _ _ _ k _ c hprov

/-- C5: on a cache miss with a successful provider call, the response text is
stored under the call's key; an immediate lookup (same time) serves it — a
second `generate_chat_response` with the same inputs returns it from the
cache regardless of the provider — and once the TTL has elapsed the cached
branch is no longer taken. -/
theorem C5_cache_put_get (h : String → Int) (now : Nat)
    (message category topic : String) (provider : Nat → HttpOutcome)
    (c : String) (cache : Cache)
    (hmiss : cacheLookupFresh now
        (category ++ ":" ++ topic ++ ":" ++ toString (h message)) cache = none)
    (hprov : provider 0 = .ok (.valid c)) :
    (generate_chat_response h now true provider message category topic cache).1.response
        = some c
      ∧ cacheLookupFresh now
          (category ++ ":" ++ topic ++ ":" ++ toString (h message))
          (generate_chat_response h now true provider message category topic cache).2
          = some c
      ∧ (∀ t, now + CACHE_TTL ≤ t →
          cacheLookupFresh t
            (category ++ ":" ++ topic ++ ":" ++ toString (h message))
            (generate_chat_response h now true provider message category topic cache).2
            = none)
      ∧ (∀ provider2 : Nat → HttpOutcome,
          (generate_chat_response h now true provider2 message category topic
            (generate_chat_response h now true provider message category topic cache).2).1
            = ⟨some c, none, none⟩) := by
  have hout : generate_chat_response h now true provider message category topic cache
      = (⟨some c, none,
          some (selectMistralParams
            (analyze_content message
              (build_system_prompt category topic (computeShortQuery message)))
            (computeShortQuery message)).model⟩,
         insertA (category ++ ":" ++ topic ++ ":" ++ toString (h message))
           ⟨c, now + CACHE_TTL⟩ cache) := by
    simp only [generate_chat_response, hmiss]
    rw [generate_mistral_first_ok _ _ _ _ _ hprov]
    rfl
  refine ⟨by rw [hout], ?_, ?_, ?_⟩
  · rw [hout]
    simp [cacheLookupFresh, lookupA_insertA_self, CACHE_TTL]
  · intro t ht
    rw [hout]
    simp only [cacheLookupFresh, lookupA_insertA_self]
    rw [if_neg (by omega)]
  · intro provider2
    rw [hout]
    have hhit : cacheLookupFresh now
        (category ++ ":" ++ topic ++ ":" ++ toString (h message))
        (insertA (category ++ ":" ++ topic ++ ":" ++ toString (h message))
          ⟨c, now + CACHE_TTL⟩ cache) = some c := by
      simp [cacheLookupFresh, lookupA_insertA_self, CACHE_TTL]
    simp only [generate_chat_response, hhit]

/-- C5 (witness): the round-trip theorem at a concrete hash, time, message
and provider, starting from the empty cache. -/
theorem C5_cache_put_get_witness :
    cacheLookupFresh 0
        ("vedas" ++ ":" ++ "rigveda" ++ ":" ++ toString ((fun (_ : String) => (0 : Int)) "hi"))
        ([] : Cache) = none
      ∧ ((fun (_ : Nat) => HttpOutcome.ok (.valid "cached-text")) 0
          = HttpOutcome.ok (.valid "cached-text"))
      ∧ (generate_chat_response (fun _ => 0) 0 true
          (fun _ => HttpOutcome.ok (.valid "cached-text")) "hi" "vedas" "rigveda"
          []).1.response = some "cached-text" :=
  ⟨by decide, rfl,
   (C5_cache_put_get (fun _ => 0) 0 "hi" "vedas" "rigveda"
     (fun _ => HttpOutcome.ok (.valid "cached-text")) "cached-text" []
     (by decide) rfl).1⟩

/-! ## Claim C8 -/

/-- C8: for every input and every provider behaviour (success, HTTP errors,
timeouts, connection failures, malformed bodies — including the key-lookup
exception that escapes `generate_mistral_response` — and a missing API
key), `generate_chat_response` returns a dict that has a `response` field;
no exception reaches the caller. -/
theorem C8_always_response (h : String → Int) (now : Nat) (avail : Bool)
    (provider : Nat → HttpOutcome) (message category topic : String)
    (cache : Cache) :
    ((generate_chat_response h now avail provider message category topic
        cache).1.response).isSome = true := by
  rcases hcl : cacheLookupFresh now
      (category ++ ":" ++ topic ++ ":" ++ toString (h message)) cache with _ | cached
  · simp only [generate_chat_response, hcl]
    cases avail
    · simp
    · rcases hgen : generate_mistral_response
          (build_system_prompt category topic (computeShortQuery message))
          message (computeShortQuery message) provider with ⟨o, tr⟩
      simp only [hgen]
      cases o <;> simp [mistralDict]
  · simp [generate_chat_response, hcl]

/-! ## Claim C9 -/

/-- C9 (counterexample): with a provider that always fails non-retryably
(HTTP 401) — so no provider call succeeds — `generate_chat_response` still
mutates the cache: it stores the fallback text under its own key.  This
refutes the claim that the only cache write happens on a successful
provider call. -/
theorem C9_frame_cex :
    (generate_chat_response (fun _ => 0) 0 true (fun _ => .httpError 401)
      "hi" "vedas" "rigveda" []).2 ≠ [] := by
  decide

/-- C9 (amended): `generate_chat_response` never removes cache entries and
never runs the sweep; the cache either is unchanged or has exactly the
call's own key written (which happens whenever the provider call returns a
dict, successful or fallback), so every other key's entry is untouched and
no size bound is enforced on this path. -/
theorem C9_frame_amended (h : String → Int) (now : Nat) (avail : Bool)
    (provider : Nat → HttpOutcome) (message category topic : String)
    (cache : Cache) :
    (∀ k2, k2 ≠ category ++ ":" ++ topic ++ ":" ++ toString (h message) →
        lookupA k2 (generate_chat_response h now avail provider message category
          topic cache).2 = lookupA k2 cache)
      ∧ ((generate_chat_response h now avail provider message category topic
            cache).2 = cache
          ∨ ∃ e, (generate_chat_response h now avail provider message category topic
              cache).2
            = insertA (category ++ ":" ++ topic ++ ":" ++ toString (h message)) e cache) := by
  rcases hcl : cacheLookupFresh now
      (category ++ ":" ++ topic ++ ":" ++ toString (h message)) cache with _ | cached
  · simp only [generate_chat_response, hcl]
    cases avail
    · simp
    · rcases hgen : generate_mistral_response
          (build_system_prompt category topic (computeShortQuery message))
          message (computeShortQuery message) provider with ⟨o, tr⟩
      simp only [hgen]
      cases o with
      | ok c m cx =>
        exact ⟨fun k2 hk2 => lookupA_insertA_ne _ k2 _ cache hk2, .inr ⟨_, rfl⟩⟩
      | fallback cat short e m cx =>
        exact ⟨fun k2 hk2 => lookupA_insertA_ne _ k2 _ cache hk2, .inr ⟨_, rfl⟩⟩
      | exc => simp
  · simp [generate_chat_response, hcl]

/-- C9 (witness): the frame theorem at concrete inputs, checking that a key
other than the call's own is untouched. -/
theorem C9_frame_witness :
    "other" ≠ "vedas" ++ ":" ++ "rigveda" ++ ":"
        ++ toString ((fun (_ : String) => (0 : Int)) "hi")
      ∧ lookupA "other"
          (generate_chat_response (fun _ => 0) 5 true
            (fun _ => HttpOutcome.ok (.valid "ok")) "hi" "vedas" "rigveda" []).2
        = lookupA "other" ([] : Cache) :=
  ⟨by decide,
   (C9_frame_amended (fun _ => 0) 5 true (fun _ => HttpOutcome.ok (.valid "ok"))
     "hi" "vedas" "rigveda" []).1 "other" (by decide)⟩

/-! ## Claim C6 -/

/-- The sweep's descending-expiry comparator is transitive. -/
theorem expiryGe_trans (a b c : String × CacheEntry)
    (h1 : decide (b.2.expiry ≤ a.2.expiry) = true)
    (h2 : decide (c.2.expiry ≤ b.2.expiry) = true) :
    decide (c.2.expiry ≤ a.2.expiry) = true := by
  simp at *
  omega

/-- The sweep's descending-expiry comparator is total. -/
theorem expiryGe_total (a b : String × CacheEntry) :
    (decide (b.2.expiry ≤ a.2.expiry) || decide (a.2.expiry ≤ b.2.expiry)) = true := by
  simp [Nat.le_total]

/-- C6: the sweep removes exactly the expired entries; when the survivors
still exceed `CACHE_MAX_SIZE` it keeps exactly `CACHE_MAX_SIZE` of them and
discards entries with the earliest expiries first (every discarded entry's
expiry is at most every retained entry's expiry); otherwise it keeps all
survivors. -/
theorem C6_sweep_evicts_earliest (now : Nat) (cache : Cache) :
    (∀ kv ∈ clean_expired_cache_entries now cache, now ≤ kv.2.expiry)
      ∧ ((cache.filter (fun kv => decide (now ≤ kv.2.expiry))).length ≤ CACHE_MAX_SIZE →
          clean_expired_cache_entries now cache
            = cache.filter (fun kv => decide (now ≤ kv.2.expiry)))
      ∧ (CACHE_MAX_SIZE < (cache.filter (fun kv => decide (now ≤ kv.2.expiry))).length →
          (clean_expired_cache_entries now cache).length = CACHE_MAX_SIZE
            ∧ ∃ discarded : Cache,
                (cache.filter (fun kv => decide (now ≤ kv.2.expiry))).Perm
                  (clean_expired_cache_entries now cache ++ discarded)
                ∧ ∀ x ∈ clean_expired_cache_entries now cache, ∀ y ∈ discarded,
                    y.2.expiry ≤ x.2.expiry) := by
  by_cases hlen :
      CACHE_MAX_SIZE < (cache.filter (fun kv => decide (now ≤ kv.2.expiry))).length
  · have hceq : clean_expired_cache_entries now cache
        = ((cache.filter (fun kv => decide (now ≤ kv.2.expiry))).mergeSort
            (fun a b => decide (b.2.expiry ≤ a.2.expiry))).take CACHE_MAX_SIZE := by
      simp [clean_expired_cache_entries, hlen]
    have hperm := List.mergeSort_perm
      (cache.filter (fun kv => decide (now ≤ kv.2.expiry)))
      (fun a b => decide (b.2.expiry ≤ a.2.expiry))
    have hsorted := @List.sorted_mergeSort _
      (fun a b => decide (b.2.expiry ≤ a.2.expiry))
      expiryGe_trans expiryGe_total
      (cache.filter (fun kv => decide (now ≤ kv.2.expiry)))
    have hsplit := List.take_append_drop CACHE_MAX_SIZE
      ((cache.filter (fun kv => decide (now ≤ kv.2.expiry))).mergeSort
        (fun a b => decide (b.2.expiry ≤ a.2.expiry)))
    refine ⟨?_, fun hle => absurd hlen (Nat.not_lt.mpr hle), fun _ => ⟨?_, ?_⟩⟩
    · intro kv hkv
      rw [hceq] at hkv
      have hmem : kv ∈ cache.filter (fun kv => decide (now ≤ kv.2.expiry)) := by
        have := List.mem_of_mem_take hkv
        rw [List.mem_mergeSort] at this
        exact this
      have := (List.mem_filter.mp hmem).2
      simpa using this
    · rw [hceq, List.length_take, List.length_mergeSort]
      exact Nat.min_eq_left (Nat.le_of_lt hlen)
    · refine ⟨((cache.filter (fun kv => decide (now ≤ kv.2.expiry))).mergeSort
          (fun a b => decide (b.2.expiry ≤ a.2.expiry))).drop CACHE_MAX_SIZE, ?_, ?_⟩
      · rw [hceq, hsplit]
        exact hperm.symm
      · intro x hx y hy
        rw [hceq] at hx
        have hpair := List.pairwise_append.mp (by rw [hsplit]; exact hsorted)
        have := hpair.2.2 x hx y hy
        simpa using this
  · have hceq : clean_expired_cache_entries now cache
        = cache.filter (fun kv => decide (now ≤ kv.2.expiry)) := by
      simp [clean_expired_cache_entries, hlen]
    refine ⟨?_, fun _ => hceq, fun hgt => absurd hgt hlen⟩
    intro kv hkv
    rw [hceq] at hkv
    have := (List.mem_filter.mp hkv).2
    simpa using this

/-- C6 (witness): the sweep theorem at a concrete two-entry cache holding
one expired and one live entry at time 5. -/
theorem C6_sweep_witness :
    (∀ kv ∈ clean_expired_cache_entries 5 [("a", ⟨"r1", 3⟩), ("b", ⟨"r2", 9⟩)],
        5 ≤ kv.2.expiry)
      ∧ (([("a", (⟨"r1", 3⟩ : CacheEntry)), ("b", ⟨"r2", 9⟩)].filter
            (fun kv => decide (5 ≤ kv.2.expiry))).length ≤ CACHE_MAX_SIZE →
          clean_expired_cache_entries 5 [("a", ⟨"r1", 3⟩), ("b", ⟨"r2", 9⟩)]
            = [("a", (⟨"r1", 3⟩ : CacheEntry)), ("b", ⟨"r2", 9⟩)].filter
                (fun kv => decide (5 ≤ kv.2.expiry))) :=
  ⟨(C6_sweep_evicts_earliest 5 [("a", ⟨"r1", 3⟩), ("b", ⟨"r2", 9⟩)]).1,
   (C6_sweep_evicts_earliest 5 [("a", ⟨"r1", 3⟩), ("b", ⟨"r2", 9⟩)]).2.1⟩

/-! ## Claim C10 -/

/-- Bumping a counter adds exactly one to the sum of all counts. -/
theorem sum_bumpCount (k : String) (l : List (String × Nat)) :
    ((bumpCount k l).map Prod.snd).sum = (l.map Prod.snd).sum + 1 := by
  induction l with
  | nil => simp [bumpCount]
  | cons p t ih =>
    obtain ⟨k2, n⟩ := p
    by_cases hk : k2 = k
    · simp [bumpCount, hk]
      omega
    · simp [bumpCount, hk, ih]
      omega

/-- C10: from the initial analytics store, every sequence of
`track_response_time` / `track_error` calls keeps `successful_requests` at
most `total_requests` and `total_requests` equal to `successful_requests`
plus the sum of all error counts; moreover each single tracking call
preserves this invariant from any store satisfying it. -/
theorem C10_analytics_invariant :
    (∀ ops : List AnalyticsOp, AnalyticsInv (runAnalyticsOps ops))
      ∧ (∀ (s : AnalyticsStore) (op : AnalyticsOp),
          AnalyticsInv s → AnalyticsInv (applyAnalyticsOp s op)) := by
  have hpres : ∀ (s : AnalyticsStore) (op : AnalyticsOp),
      AnalyticsInv s → AnalyticsInv (applyAnalyticsOp s op) := by
    rintro s op ⟨h1, h2⟩
    cases op with
    | responseTime c t m r ts =>
      refine ⟨?_, ?_⟩ <;>
        simp only [applyAnalyticsOp, track_response_time, sumErrors] at *
      · omega
      · omega
    | errorEvent c t e msg =>
      refine ⟨?_, ?_⟩ <;>
        simp only [applyAnalyticsOp, track_error, sumErrors, sum_bumpCount] at *
      · omega
      · omega
  refine ⟨?_, hpres⟩
  have hrun : ∀ (l : List AnalyticsOp) (s : AnalyticsStore),
      AnalyticsInv s → AnalyticsInv (l.foldl applyAnalyticsOp s) := by
    intro l
    induction l with
    | nil => intro s hs; exact hs
    | cons op rest ih => intro s hs; exact ih _ (hpres s op hs)
  intro ops
  exact hrun ops initialAnalyticsStore ⟨Nat.le_refl 0, by simp [initialAnalyticsStore, sumErrors]⟩

/-- C10 (witness): the preservation part applied to the initial store and a
concrete error-tracking call, after one concrete run of both calls. -/
theorem C10_analytics_witness :
    AnalyticsInv initialAnalyticsStore
      ∧ AnalyticsInv (applyAnalyticsOp initialAnalyticsStore
          (.errorEvent "vedas" "rigveda" "timeout" "msg"))
      ∧ AnalyticsInv (runAnalyticsOps
          [.errorEvent "vedas" "rigveda" "timeout" "msg",
           .responseTime "vedas" "rigveda" "mistral-small-latest" 1 0]) :=
  ⟨⟨Nat.le_refl 0, by simp [initialAnalyticsStore, sumErrors]⟩,
   C10_analytics_invariant.2 initialAnalyticsStore _
     ⟨Nat.le_refl 0, by simp [initialAnalyticsStore, sumErrors]⟩,
   C10_analytics_invariant.1 _⟩
